import Mathlib

/-!
Verification development for the date-fns format-token interpreter.

The JavaScript sources under verification are the formatter dispatch table
`src/format/_lib/formatters/index.js` (the claims reference the revision of
the table that dispatches on `pattern.length`, lines 463-900 of the packaged
file) together with its shared helpers `addLeadingZeros` and
`formatTimezone`, and — modelled from the specification, because the driver
itself is not among the provided sources — the token scanner and format
driver of `format/index.js`.

Machine integers: all arithmetic on calendar fields is small-integer
arithmetic well inside the exactly-representable range of JavaScript
doubles, so it is embedded as `Nat`/`Int` arithmetic.  The one floating
point expression, `Math.floor(milliseconds * Math.pow(10, len - 3))` in the
`S` formatter, is exact for `len ≥ 3`; for `len ∈ {1, 2}` the double
nearest to `10^(len-3)` is strictly above the true value, hence the product
for `0 ≤ ms ≤ 999` lies in `[k, k + 2^-40)` around the exact rational
`ms / 10^(3-len)` and its floor equals the integer division
`ms / 10^(3-len)`; it is embedded accordingly.
-/

namespace DateFns

/-- Errors raised by the JavaScript runtime while a formatter body runs.  In
an ES module (strict mode) reading an identifier that is bound nowhere
raises `ReferenceError` with the name of the identifier. -/
inductive JsError where
  | referenceError (name : String)
deriving DecidableEq

/-- Snapshot of a JavaScript `Date` as consumed by the formatters: one field
per getter the source calls.  `valid` is `false` for a NaN-backed instant
(`new Date(NaN)`); the driver checks it before any field is read, so the
numeric fields of an invalid value are never consumed. -/
structure DateValue where
  valid : Bool
  /-- `getUTCFullYear()`: signed astronomical year, year 0 = 1 BC. -/
  fullYear : Int
  /-- `getUTCMonth()`: 0-based month. -/
  month : Nat
  /-- `getUTCDate()`: 1-based day of month. -/
  date : Nat
  /-- `getUTCDay()`: day of week, 0 = Sunday. -/
  day : Nat
  /-- `getUTCHours()`. -/
  hours : Nat
  /-- `getUTCMinutes()`. -/
  minutes : Nat
  /-- `getUTCSeconds()`. -/
  seconds : Nat
  /-- `getUTCMilliseconds()`. -/
  milliseconds : Nat
  /-- `getTimezoneOffset()`: minutes, positive west of UTC. -/
  timezoneOffset : Int
  /-- `getTime()`: milliseconds since the epoch. -/
  time : Int

/-- The injected locale capability (`localize` in the source).  Widths and
contexts are passed as plain strings, mirroring the `{width: ..., context:
...}` option objects of the source. -/
structure Localize where
  era : Int → String → String
  quarter : Int → String → String → String
  month : Nat → String → String → String
  weekday : Nat → String → String → String
  timeOfDay : Nat → String → String
  ordinalNumber : Int → String → String

/-- The `while (output.length < targetLength) output = '0' + output` loop of
the source's `addLeadingZeros`. -/
def padLoop (output : String) (targetLength : Nat) : String :=
  if _h : output.length < targetLength then padLoop ("0" ++ output) targetLength else output
termination_by targetLength - output.length
decreasing_by
  have h0 : ("0" : String).length = 1 := rfl
  have hl := String.length_append "0" output
  omega

/-- Embeds `addLeadingZeros(number, targetLength)`
(formatters/index.js:892-898): render `Math.abs(number)` in decimal, then
left-pad with `'0'` while shorter than `targetLength`. -/
def addLeadingZeros (number : Int) (targetLength : Nat) : String :=
  padLoop (Nat.repr number.natAbs) targetLength

/-- Embeds `formatTimezone(offset, delimeter)` (formatters/index.js:883-890).
The JavaScript default `delimeter = delimeter || ''` is the identity on the
string argument supplied at every call site, so the delimiter is passed
explicitly. -/
def formatTimezone (offset : Int) (delimeter : String) : String :=
  let sign := if offset > 0 then "-" else "+"
  let absOffset := offset.natAbs
  let hours := absOffset / 60
  let minutes := absOffset % 60
  sign ++ addLeadingZeros hours 2 ++ delimeter ++ addLeadingZeros minutes 2

namespace formatters

/-- Embeds `formatters.G` (era), dispatching on `pattern.length`. -/
def G (pattern : String) (date : DateValue) (localize : Localize) : String :=
  let era : Int := if date.fullYear > 0 then 1 else -1
  match pattern.length with
  | 1 | 2 | 3 => localize.era era "abbreviated"
  | 5 => localize.era era "narrow"
  | _ => localize.era era "wide"

/-- The `var year = signedYear > 0 ? signedYear : 1 - signedYear` step of
`formatters.y`: the reported (absolute, BC-shifted) year. -/
def yReportedYear (date : DateValue) : Int :=
  if date.fullYear > 0 then date.fullYear else 1 - date.fullYear

/-- Embeds `formatters.y` (formatters/index.js:484-506).  At run length 2
the source returns `addLeadingZeros(year, 4).substr(2)` (drop the first two
characters of the 4-left-padded rendering); at any other run length it pads
to the run length. -/
def y (pattern : String) (date : DateValue) (_localize : Localize) : String :=
  let year := yReportedYear date
  if pattern.length = 2 then
    (addLeadingZeros year 4).drop 2
  else
    addLeadingZeros year pattern.length

/-- Embeds `formatters.Y` (ISO week-numbering year).  `getUTCISOWeekYear` is
not among the provided sources, so it is an injected parameter. -/
def Y (getUTCISOWeekYear : DateValue → Int) (pattern : String) (date : DateValue)
    (_localize : Localize) : String :=
  let isoWeekYear := getUTCISOWeekYear date
  if pattern.length = 2 then
    (addLeadingZeros isoWeekYear 4).drop 2
  else
    addLeadingZeros isoWeekYear pattern.length

/-- Embeds `formatters.u` (formatters/index.js:530-534): extended year,
`sign + addLeadingZeros(Math.abs(year), pattern.length)` with
`sign = year >= 0 ? '' : '-'`. -/
def u (pattern : String) (date : DateValue) (_localize : Localize) : String :=
  let year := date.fullYear
  let sign := if year ≥ 0 then "" else "-"
  sign ++ addLeadingZeros year.natAbs pattern.length

/-- Embeds `formatters.Q` (quarter).  `Math.ceil((month + 1) / 3)` on a
0-based month is `(month + 3) / 3` in integer arithmetic.  The run length
3, 4 and default branches evaluate the identifier `era`, which is bound
nowhere in the module, so they raise `ReferenceError` before the localizer
is reached. -/
def Q (pattern : String) (date : DateValue) (_localize : Localize) : Except JsError String :=
  let quarter := (date.month + 3) / 3
  match pattern.length with
  | 1 => .ok (Nat.repr quarter)
  | 2 => .ok (addLeadingZeros quarter 2)
  | _ => .error (.referenceError "era")

/-- Embeds `formatters.q` (stand-alone quarter); same body shape as `Q`,
including the unbound `era` in the named-width branches. -/
def q (pattern : String) (date : DateValue) (_localize : Localize) : Except JsError String :=
  let quarter := (date.month + 3) / 3
  match pattern.length with
  | 1 => .ok (Nat.repr quarter)
  | 2 => .ok (addLeadingZeros quarter 2)
  | _ => .error (.referenceError "era")

/-- Embeds `formatters.M` (formatters/index.js:581-602).  Run length 1
returns the 1-based month number (coerced to a string by the driver's
concatenation); run length 2 pads it to two characters.  The branches for
run lengths 3, 5 and the 4/default branch all call
`localize.month(era, ...)` where `era` is bound nowhere in the module
(a copy-paste slip from `G`), so they raise `ReferenceError` before the
localizer can be invoked. -/
def M (pattern : String) (date : DateValue) (_localize : Localize) : Except JsError String :=
  let month := date.month
  match pattern.length with
  | 1 => .ok (Nat.repr (month + 1))
  | 2 => .ok (addLeadingZeros (month + 1) 2)
  | _ => .error (.referenceError "era")

/-- Embeds `formatters.L` (stand-alone month); same body shape as `M`,
including the unbound `era` in the named-width branches. -/
def L (pattern : String) (date : DateValue) (_localize : Localize) : Except JsError String :=
  let month := date.month
  match pattern.length with
  | 1 => .ok (Nat.repr (month + 1))
  | 2 => .ok (addLeadingZeros (month + 1) 2)
  | _ => .error (.referenceError "era")

/-- Embeds `formatters.w` (ISO week of year); `getUTCISOWeek` is not among
the provided sources, so it is an injected parameter. -/
def w (getUTCISOWeek : DateValue → Int) (pattern : String) (date : DateValue)
    (_localize : Localize) : String :=
  let isoWeek := getUTCISOWeek date
  addLeadingZeros isoWeek pattern.length

/-- Embeds `formatters.d` (day of month). -/
def d (pattern : String) (date : DateValue) (_localize : Localize) : String :=
  let dayOfMonth := date.date
  addLeadingZeros dayOfMonth pattern.length

/-- Embeds `formatters.D` (day of year); `getUTCDayOfYear` is not among the
provided sources, so it is an injected parameter. -/
def D (getUTCDayOfYear : DateValue → Int) (pattern : String) (date : DateValue)
    (_localize : Localize) : String :=
  let dayOfYear := getUTCDayOfYear date
  addLeadingZeros dayOfYear pattern.length

/-- Embeds `formatters.E` (day of week).  Every branch of the switch calls
the localizer with the identifier `era`, which is bound nowhere in the
module, so every call raises `ReferenceError` (the preceding
`var dayOfWeek = date.getUTCDay()` evaluates without effect). -/
def E (_pattern : String) (_date : DateValue) (_localize : Localize) : Except JsError String :=
  .error (.referenceError "era")

/-- Embeds `formatters.c` (stand-alone local day of week).  Run lengths 1
and 2 return the placeholder string `'TODO'`; all other branches read the
unbound identifier `era` and raise `ReferenceError`. -/
def c (pattern : String) (_date : DateValue) (_localize : Localize) : Except JsError String :=
  match pattern.length with
  | 1 | 2 => .ok "TODO"
  | _ => .error (.referenceError "era")

/-- Embeds `formatters.a` (AM/PM). -/
def a (_pattern : String) (date : DateValue) (localize : Localize) : String :=
  localize.timeOfDay date.hours "narrow"

/-- The hour value computed by `formatters.h`: `getUTCHours() % 12`, with 0
replaced by 12. -/
def hReportedHours (date : DateValue) : Nat :=
  let hours := date.hours % 12
  if hours = 0 then 12 else hours

/-- Embeds `formatters.h` (hour 1-12, formatters/index.js:715-723). -/
def h (pattern : String) (date : DateValue) (_localize : Localize) : String :=
  addLeadingZeros (hReportedHours date) pattern.length

/-- Embeds `formatters.H` (hour 0-23). -/
def H (pattern : String) (date : DateValue) (_localize : Localize) : String :=
  let hours := date.hours
  addLeadingZeros hours pattern.length

/-- Embeds `formatters.K` (hour 0-11): `getUTCHours() % 12`, padded. -/
def K (pattern : String) (date : DateValue) (_localize : Localize) : String :=
  let hours := date.hours % 12
  addLeadingZeros hours pattern.length

/-- Embeds `formatters.k` (hour 1-24): `getUTCHours()`, with 0 replaced by
24, padded. -/
def k (pattern : String) (date : DateValue) (_localize : Localize) : String :=
  let hours := date.hours
  let hours := if hours = 0 then 24 else hours
  addLeadingZeros hours pattern.length

/-- Embeds `formatters.m` (minute). -/
def m (pattern : String) (date : DateValue) (_localize : Localize) : String :=
  let minutes := date.minutes
  addLeadingZeros minutes pattern.length

/-- Embeds `formatters.s` (second). -/
def s (pattern : String) (date : DateValue) (_localize : Localize) : String :=
  let seconds := date.seconds
  addLeadingZeros seconds pattern.length

/-- Embeds `formatters.S` (fractional second, formatters/index.js:761-766).
`fractionalSeconds = Math.floor(milliseconds * Math.pow(10, numberOfDigits -
3))` is exact integer arithmetic for `numberOfDigits ≥ 3` and equals the
integer division `milliseconds / 10^(3 - numberOfDigits)` otherwise (see the
module docstring for the floating-point analysis).  The final call passes
`numberOfDigits.length` — a property read on a Number, which is `undefined`
— as the target length, and `output.length < undefined` is `false`, so the
padding loop never runs; this is embedded as target length 0. -/
def S (pattern : String) (date : DateValue) (_localize : Localize) : String :=
  let numberOfDigits := pattern.length
  let milliseconds := date.milliseconds
  let fractionalSeconds :=
    if 3 ≤ numberOfDigits then milliseconds * 10 ^ (numberOfDigits - 3)
    else milliseconds / 10 ^ (3 - numberOfDigits)
  addLeadingZeros fractionalSeconds 0

/-- Embeds `formatters.X` (formatters/index.js:799-832).  The parameter list
of this revision is `(pattern, date, localize)`, but the body begins with
`var originalDate = options._originalDate || date`; the identifier
`options` is bound nowhere in the module, so every call raises
`ReferenceError` before the zero-offset check or the switch can run.  The
rest of the body is unreachable (it also reads the misspelled unbound names
`originalData` and `timezoneOffse`). -/
def X (_pattern : String) (_date : DateValue) (_localize : Localize) : Except JsError String :=
  .error (.referenceError "options")

/-- Embeds `formatters.x` (formatters/index.js:835-864).  Identical defect
to `X`: the body's first statement reads the unbound identifier `options`,
so every call raises `ReferenceError`. -/
def x (_pattern : String) (_date : DateValue) (_localize : Localize) : Except JsError String :=
  .error (.referenceError "options")

/-- Embeds `formatters.t` (seconds timestamp).  `options` is a parameter
here and the timestamp is computed, but the return statement reads the
unbound identifier `seconds` (instead of `timestamp`), raising
`ReferenceError`. -/
def t (_pattern : String) (_date : DateValue) (_localize : Localize)
    (_originalDate : Option DateValue) : Except JsError String :=
  .error (.referenceError "seconds")

/-- Embeds `formatters.T` (milliseconds timestamp).  Like `t`, the return
statement reads the unbound identifier `seconds`, raising
`ReferenceError`. -/
def T (_pattern : String) (_date : DateValue) (_localize : Localize)
    (_originalDate : Option DateValue) : Except JsError String :=
  .error (.referenceError "seconds")

end formatters

/-- The single quote character that delimits literal spans in a pattern. -/
def quoteChar : Char := '\''

/-- Modelled from the spec: the unit of scanning (§3 Token) — either a
directive (letter and run length) or literal text with quote escapes
already decoded. -/
inductive Token where
  | directive (letter : Char) (runLength : Nat)
  | literal (text : String)

/-- Modelled from the spec (§4.3): consume the body of a quoted literal
span, the opening quote already consumed.  The span ends at the next
unescaped single quote; inside the span two consecutive quotes decode to
one literal quote character; an unterminated span extends to the end of the
string.  Returns the decoded span text and the remaining input. -/
def scanQuoted : List Char → String × List Char
  | [] => ("", [])
  | ch :: rest =>
    if ch = quoteChar then
      match rest with
      | ch2 :: rest2 =>
        if ch2 = quoteChar then
          let pr := scanQuoted rest2
          ("'" ++ pr.1, pr.2)
        else
          ("", rest)
      | [] => ("", [])
    else
      let pr := scanQuoted rest
      (String.singleton ch ++ pr.1, pr.2)

theorem scanQuoted_rest_length (l : List Char) : (scanQuoted l).2.length ≤ l.length := by
  have key : ∀ (n : Nat) (l : List Char), l.length ≤ n → (scanQuoted l).2.length ≤ l.length := by
    intro n
    induction n with
    | zero =>
      intro l hl
      have : l = [] := List.length_eq_zero.mp (Nat.le_zero.mp hl)
      subst this
      simp [scanQuoted]
    | succ n ih =>
      intro l hl
      cases l with
      | nil => simp [scanQuoted]
      | cons ch rest =>
        by_cases hq : ch = quoteChar
        · subst hq
          cases rest with
          | nil => simp [scanQuoted]
          | cons ch2 rest2 =>
            by_cases hq2 : ch2 = quoteChar
            · subst hq2
              have ihr := ih rest2 (by simp only [List.length_cons] at hl ⊢; omega)
              simp only [List.length_cons]
              simp [scanQuoted]
              omega
            · simp [scanQuoted, hq2]
        · have ihr := ih rest (by simp only [List.length_cons] at hl; omega)
          simp only [List.length_cons]
          rw [scanQuoted.eq_def]
          simp [hq]
          omega
  exact key l.length l (Nat.le_refl _)

/-- Modelled from the spec (§4.3 Token Scanner): scan left to right; a
maximal run of one identical letter becomes a directive token carrying the
run length; a lone doubled quote decodes to one literal quote character; a
single quote opens a literal span handled by `scanQuoted`; any other
character is literal text (emitted here as one token per character —
coalescing adjacent literal characters is an efficiency option the spec
explicitly does not require). -/
def scanTokens : List Char → List Token
  | [] => []
  | ch :: rest =>
    if ch = quoteChar then
      match rest with
      | ch2 :: rest2 =>
        if ch2 = quoteChar then
          Token.literal "'" :: scanTokens rest2
        else
          let pr := scanQuoted (ch2 :: rest2)
          Token.literal pr.1 :: scanTokens pr.2
      | [] => [Token.literal ""]
    else if ch.isAlpha then
      Token.directive ch ((rest.takeWhile (fun x => x = ch)).length + 1)
        :: scanTokens (rest.dropWhile (fun x => x = ch))
    else
      Token.literal (String.singleton ch) :: scanTokens rest
termination_by l => l.length
decreasing_by
  all_goals simp only [List.length_cons]
  all_goals first
    | omega
    | (have h1 := scanQuoted_rest_length (ch2 :: rest2)
       simp only [List.length_cons] at h1
       omega)
    | (have h1 := (List.dropWhile_sublist (l := rest) (fun x => x = ch)).length_le
       omega)

/-- The collaborators the driver threads to the unit formatters: the
injected locale capability, the calendar-arithmetic helpers (whose sources
are not part of the package under verification), and the original
non-UTC-normalized date used by the timestamp directives. -/
structure FormatEnv where
  localize : Localize
  getUTCDayOfYear : DateValue → Int
  getUTCISOWeek : DateValue → Int
  getUTCISOWeekYear : DateValue → Int
  originalDate : Option DateValue

/-- Modelled from the spec (§4.4): look up and invoke the unit formatter
matching a directive token's letter, or emit a literal token's text.
Directive letters outside the table pass through verbatim (the
pass-through policy of §7, documented here as the implemented choice).
Formatter results that are JavaScript numbers are coerced to strings by the
driver's string concatenation, embedded as `Nat.repr` at the point of
production. -/
def renderToken (env : FormatEnv) (date : DateValue) : Token → Except JsError String
  | Token.literal text => .ok text
  | Token.directive letter runLength =>
    let pattern : String := ⟨List.replicate runLength letter⟩
    match letter with
    | 'G' => .ok (formatters.G pattern date env.localize)
    | 'y' => .ok (formatters.y pattern date env.localize)
    | 'Y' => .ok (formatters.Y env.getUTCISOWeekYear pattern date env.localize)
    | 'u' => .ok (formatters.u pattern date env.localize)
    | 'Q' => formatters.Q pattern date env.localize
    | 'q' => formatters.q pattern date env.localize
    | 'M' => formatters.M pattern date env.localize
    | 'L' => formatters.L pattern date env.localize
    | 'w' => .ok (formatters.w env.getUTCISOWeek pattern date env.localize)
    | 'd' => .ok (formatters.d pattern date env.localize)
    | 'D' => .ok (formatters.D env.getUTCDayOfYear pattern date env.localize)
    | 'E' => formatters.E pattern date env.localize
    | 'c' => formatters.c pattern date env.localize
    | 'a' => .ok (formatters.a pattern date env.localize)
    | 'h' => .ok (formatters.h pattern date env.localize)
    | 'H' => .ok (formatters.H pattern date env.localize)
    | 'K' => .ok (formatters.K pattern date env.localize)
    | 'k' => .ok (formatters.k pattern date env.localize)
    | 'm' => .ok (formatters.m pattern date env.localize)
    | 's' => .ok (formatters.s pattern date env.localize)
    | 'S' => .ok (formatters.S pattern date env.localize)
    | 'X' => formatters.X pattern date env.localize
    | 'x' => formatters.x pattern date env.localize
    | 't' => formatters.t pattern date env.localize env.originalDate
    | 'T' => formatters.T pattern date env.localize env.originalDate
    | _ => .ok pattern

/-- Modelled from the spec (§4.4): render each token in order and
concatenate the results; a formatter error aborts the call. -/
def renderTokens (env : FormatEnv) (date : DateValue) : List Token → Except JsError String
  | [] => .ok ""
  | tok :: rest => do
    let piece ← renderToken env date tok
    let tail ← renderTokens env date rest
    .ok (piece ++ tail)

/-- Modelled from the spec (§4.4 Format Driver): `format/index.js` is not
among the provided sources (only its test file is), so the driver is
modelled from the specification's contract: if the resolved calendar value
is invalid (NaN-backed instant) return the literal string `"Invalid Date"`
immediately, bypassing scanning and formatting; otherwise scan the pattern
once and concatenate each token's literal text or formatter output.
Argument-shape checking (`ArityError`) and `additionalDigits` validation
concern the JavaScript call protocol and the external date-coercion step,
which precede the behaviour under verification. -/
def format (env : FormatEnv) (date : DateValue) (pattern : String) : Except JsError String :=
  if date.valid = false then .ok "Invalid Date"
  else renderTokens env date (scanTokens pattern.data)

/-! Helper lemmas about the padding loop and the decimal rendering. -/

theorem padLoop_eq (output : String) (targetLength : Nat) :
    padLoop output targetLength =
      ⟨List.replicate (targetLength - output.length) '0' ++ output.data⟩ := by
  have key : ∀ (n : Nat) (s : String), targetLength - s.length ≤ n →
      padLoop s targetLength = ⟨List.replicate (targetLength - s.length) '0' ++ s.data⟩ := by
    intro n
    induction n with
    | zero =>
      intro s hs
      rw [padLoop]
      have hlen : ¬ s.length < targetLength := by omega
      rw [dif_neg hlen]
      have hz : targetLength - s.length = 0 := by omega
      rw [hz]
      simp
    | succ n ih =>
      intro s hs
      rw [padLoop]
      by_cases hlt : s.length < targetLength
      · rw [dif_pos hlt]
        have hlen0 : ("0" ++ s).length = s.length + 1 := by
          have h0 : ("0" : String).length = 1 := rfl
          have := String.length_append "0" s
          omega
        rw [ih ("0" ++ s) (by omega)]
        have hdata : ("0" ++ s).data = '0' :: s.data := by
          rw [String.data_append]
          rfl
        rw [hlen0, hdata]
        apply String.ext
        have harith : targetLength - s.length = (targetLength - (s.length + 1)) + 1 := by omega
        rw [harith, List.replicate_succ']
        simp
      · rw [dif_neg hlt]
        have hz : targetLength - s.length = 0 := by omega
        rw [hz]
        simp
  exact key (targetLength - output.length) output (Nat.le_refl _)

theorem digitChar_isDigit (m : Nat) (hm : m < 10) : (Nat.digitChar m).isDigit = true := by
  interval_cases m <;> rfl

theorem toDigitsCore_digits (fuel : Nat) : ∀ (n : Nat) (acc : List Char),
    (∀ ch ∈ acc, ch.isDigit = true) →
    ∀ ch ∈ Nat.toDigitsCore 10 fuel n acc, ch.isDigit = true := by
  induction fuel with
  | zero =>
    intro n acc hacc ch hch
    simpa [Nat.toDigitsCore] using hacc ch (by simpa [Nat.toDigitsCore] using hch)
  | succ fuel ih =>
    intro n acc hacc ch hch
    have hd : (Nat.digitChar (n % 10)).isDigit = true :=
      digitChar_isDigit _ (Nat.mod_lt _ (by omega))
    have haccd : ∀ c ∈ Nat.digitChar (n % 10) :: acc, c.isDigit = true := by
      intro c hc
      rcases List.mem_cons.mp hc with h | h
      · rw [h]; exact hd
      · exact hacc c h
    simp only [Nat.toDigitsCore] at hch
    split at hch
    · exact haccd ch hch
    · exact ih (n / 10) (Nat.digitChar (n % 10) :: acc) haccd ch hch

theorem repr_data_digits (n : Nat) : ∀ ch ∈ (Nat.repr n).data, ch.isDigit = true := by
  intro ch hch
  have hdata : (Nat.repr n).data = Nat.toDigits 10 n := rfl
  rw [hdata] at hch
  exact toDigitsCore_digits (n + 1) n [] (by simp) ch hch

theorem toDigitsCore_length_ge (fuel : Nat) : ∀ (n : Nat) (acc : List Char), 0 < fuel →
    acc.length + 1 ≤ (Nat.toDigitsCore 10 fuel n acc).length := by
  induction fuel with
  | zero => omega
  | succ fuel ih =>
    intro n acc _
    simp only [Nat.toDigitsCore]
    split
    · simp
    · by_cases hf : 0 < fuel
      · have := ih (n / 10) (Nat.digitChar (n % 10) :: acc) hf
        simp only [List.length_cons] at this
        omega
      · have hf0 : fuel = 0 := by omega
        subst hf0
        simp [Nat.toDigitsCore]

theorem repr_length_pos (n : Nat) : 1 ≤ (Nat.repr n).length := by
  have hdata : (Nat.repr n).length = (Nat.toDigits 10 n).length := rfl
  rw [hdata]
  simpa using toDigitsCore_length_ge (n + 1) n [] (by omega)

theorem addLeadingZeros_eq (number : Int) (targetLength : Nat) :
    addLeadingZeros number targetLength =
      ⟨List.replicate (targetLength - (Nat.repr number.natAbs).length) '0'
        ++ (Nat.repr number.natAbs).data⟩ :=
  padLoop_eq _ _

theorem addLeadingZeros_length (number : Int) (targetLength : Nat) :
    (addLeadingZeros number targetLength).length
      = max targetLength (Nat.repr number.natAbs).length := by
  rw [addLeadingZeros_eq]
  have hpos := repr_length_pos number.natAbs
  simp only [String.length]
  simp only [List.length_append, List.length_replicate]
  omega

theorem addLeadingZeros_digits (number : Int) (targetLength : Nat) :
    ∀ ch ∈ (addLeadingZeros number targetLength).data, ch.isDigit = true := by
  rw [addLeadingZeros_eq]
  intro ch hch
  rcases List.mem_append.mp hch with h | h
  · rw [List.eq_of_mem_replicate h]
    rfl
  · exact repr_data_digits _ ch h

theorem addLeadingZeros_of_le (number : Int) (targetLength : Nat)
    (hle : targetLength ≤ (Nat.repr number.natAbs).length) :
    addLeadingZeros number targetLength = Nat.repr number.natAbs := by
  rw [addLeadingZeros_eq]
  have hz : targetLength - (Nat.repr number.natAbs).length = 0 := by omega
  rw [hz]
  simp

theorem addLeadingZeros_one (number : Int) :
    addLeadingZeros number 1 = Nat.repr number.natAbs :=
  addLeadingZeros_of_le number 1 (repr_length_pos _)

theorem addLeadingZeros_natAbs (number : Int) (targetLength : Nat) :
    addLeadingZeros (number.natAbs : Int) targetLength = addLeadingZeros number targetLength :=
  rfl

theorem int_repr_nonneg (i : Int) (hi : 0 ≤ i) : Int.repr i = Nat.repr i.natAbs := by
  obtain ⟨n, rfl⟩ := Int.eq_ofNat_of_zero_le hi
  rfl

theorem int_repr_neg (i : Int) (hi : i < 0) : Int.repr i = "-" ++ Nat.repr i.natAbs := by
  obtain ⟨n, rfl⟩ := Int.eq_negSucc_of_lt_zero hi
  rfl

theorem addLeadingZeros_head_not_dash (number : Int) (targetLength : Nat) :
    ¬ (addLeadingZeros number targetLength).data.head? = some '-' := by
  intro hhead
  have hmem : '-' ∈ (addLeadingZeros number targetLength).data := by
    cases hdata : (addLeadingZeros number targetLength).data with
    | nil => rw [hdata] at hhead; simp at hhead
    | cons a rest =>
      rw [hdata] at hhead
      simp only [List.head?, Option.some_inj] at hhead
      simp [hdata, hhead]
  have := addLeadingZeros_digits number targetLength '-' hmem
  simp [Char.isDigit] at this

/-! Concrete fixtures used by the claim witnesses and the failing-input
evaluations.  The field values follow the reference date of
`src/format/test.js` (1986-04-04T00:32:55.123, a Friday). -/

def trivialLocalize : Localize :=
  { era := fun _ _ => ""
    quarter := fun _ _ _ => ""
    month := fun _ _ _ => ""
    weekday := fun _ _ _ => ""
    timeOfDay := fun _ _ => ""
    ordinalNumber := fun _ _ => "" }

def trivialEnv : FormatEnv :=
  { localize := trivialLocalize
    getUTCDayOfYear := fun _ => 0
    getUTCISOWeek := fun _ => 0
    getUTCISOWeekYear := fun _ => 0
    originalDate := none }

def date1986 : DateValue :=
  { valid := true
    fullYear := 1986
    month := 3
    date := 4
    day := 5
    hours := 0
    minutes := 32
    seconds := 55
    milliseconds := 123
    timezoneOffset := 0
    time := 513045175123 }

/-! Claim theorems. -/

/-- C1: for every pattern string, calling `format` on a date value whose
instant is not finite (a NaN-backed instant, `valid = false`) returns
exactly the literal string `"Invalid Date"`, without scanning the pattern,
without invoking any unit formatter, and without throwing (the result is
`Except.ok`, produced before the scanner or any formatter is reached). -/
theorem format_invalid_date_sentinel (env : FormatEnv) (pattern : String) (d : DateValue)
    (hinvalid : d.valid = false) : format env d pattern = .ok "Invalid Date" := by
  simp [format, hinvalid]

theorem format_invalid_date_sentinel_witness :
    format trivialEnv { date1986 with valid := false } "MMMM d, yyyy" = .ok "Invalid Date" :=
  format_invalid_date_sentinel trivialEnv "MMMM d, yyyy" { date1986 with valid := false } rfl

/-- C2: for every date, the numeric year reported by the `y` formatter
equals `signedYear` when `signedYear > 0` and `1 - signedYear` otherwise
(rendered at run length 1 it is the decimal form of that always-positive
value; 1 BC, stored year 0, reports 1 and 2 BC reports 2), while the `u`
formatter reports the signed astronomical year unchanged, its output
beginning with `'-'` exactly when the year is negative (1 BC reports 0,
2 BC reports -1). -/
theorem y_u_bc_year_convention (d : DateValue) (l : Localize) :
    formatters.y "y" d l = Int.repr (if 0 < d.fullYear then d.fullYear else 1 - d.fullYear)
    ∧ 0 < (if 0 < d.fullYear then d.fullYear else 1 - d.fullYear)
    ∧ formatters.u "u" d l = Int.repr d.fullYear
    ∧ ∀ (p : String),
        ((formatters.u p d l).data.head? = some '-' ↔ d.fullYear < 0) := by
  have hpos : 0 < (if 0 < d.fullYear then d.fullYear else 1 - d.fullYear) := by
    split <;> omega
  refine ⟨?_, hpos, ?_, ?_⟩
  · have hlen : ("y" : String).length = 1 := rfl
    have h1 : formatters.y "y" d l = addLeadingZeros (formatters.yReportedYear d) 1 := by
      simp [formatters.y, hlen]
    rw [h1, addLeadingZeros_one,
      int_repr_nonneg _ (by split <;> omega)]
    rfl
  · show (if d.fullYear ≥ 0 then "" else "-") ++ addLeadingZeros (d.fullYear.natAbs : Int) 1 = _
    rw [addLeadingZeros_natAbs, addLeadingZeros_one]
    by_cases hge : d.fullYear ≥ 0
    · rw [if_pos hge, int_repr_nonneg _ hge, String.empty_append]
    · rw [if_neg hge, int_repr_neg _ (by omega)]
  · intro p
    show ((if d.fullYear ≥ 0 then "" else "-")
        ++ addLeadingZeros (d.fullYear.natAbs : Int) p.length).data.head? = some '-' ↔ _
    by_cases hge : d.fullYear ≥ 0
    · rw [if_pos hge, String.empty_append]
      constructor
      · intro hcontra
        exact absurd hcontra (addLeadingZeros_head_not_dash _ _)
      · intro hlt
        omega
    · rw [if_neg hge]
      constructor
      · intro _
        omega
      · intro _
        rw [String.data_append]
        rfl

theorem y_u_bc_year_convention_witness :
    formatters.y "y" { date1986 with fullYear := 0 } trivialLocalize = "1"
    ∧ formatters.y "y" { date1986 with fullYear := -1 } trivialLocalize = "2"
    ∧ formatters.u "u" { date1986 with fullYear := 0 } trivialLocalize = "0"
    ∧ formatters.u "u" { date1986 with fullYear := -1 } trivialLocalize = "-1" := by
  refine ⟨?_, ?_, ?_, ?_⟩
  · rw [(y_u_bc_year_convention { date1986 with fullYear := 0 } trivialLocalize).1]
    rfl
  · rw [(y_u_bc_year_convention { date1986 with fullYear := -1 } trivialLocalize).1]
    rfl
  · rw [(y_u_bc_year_convention { date1986 with fullYear := 0 } trivialLocalize).2.2.1]
    rfl
  · rw [(y_u_bc_year_convention { date1986 with fullYear := -1 } trivialLocalize).2.2.1]
    rfl

/-- C4: the shared integer-rendering primitive `addLeadingZeros` returns
the decimal digit string of `abs(value)` left-padded with `'0'` up to the
target length: its length is the maximum of the target length and the digit
count (so it never truncates), and it contains only digit characters (so it
never emits a sign); a `'-'` sign is prepended only by the `u` formatter,
and only when the year is negative — every other numeric directive passes
the absolute value straight through this primitive. -/
theorem addLeadingZeros_padding_contract (value : Int) (targetLength : Nat) :
    addLeadingZeros value targetLength
        = ⟨List.replicate (targetLength - (Nat.repr value.natAbs).length) '0'
            ++ (Nat.repr value.natAbs).data⟩
    ∧ (addLeadingZeros value targetLength).length
        = max targetLength (Nat.repr value.natAbs).length
    ∧ (∀ ch ∈ (addLeadingZeros value targetLength).data, ch.isDigit = true)
    ∧ ∀ (d : DateValue) (l : Localize) (p : String),
        formatters.u p d l
          = (if d.fullYear < 0 then "-" else "") ++ addLeadingZeros d.fullYear p.length := by
  refine ⟨addLeadingZeros_eq value targetLength, addLeadingZeros_length value targetLength,
    addLeadingZeros_digits value targetLength, ?_⟩
  intro d l p
  show (if d.fullYear ≥ 0 then "" else "-")
      ++ addLeadingZeros (d.fullYear.natAbs : Int) p.length = _
  rw [addLeadingZeros_natAbs]
  by_cases hge : d.fullYear ≥ 0
  · rw [if_pos hge, if_neg (by omega)]
  · rw [if_neg hge, if_pos (by omega)]

theorem addLeadingZeros_padding_contract_witness :
    addLeadingZeros (-7) 3 = "007"
    ∧ (addLeadingZeros 12345 4).length = 5
    ∧ formatters.u "uu" { date1986 with fullYear := -1 } trivialLocalize
        = "-" ++ addLeadingZeros (-1) 2 := by
  refine ⟨?_, ?_, ?_⟩
  · rw [(addLeadingZeros_padding_contract (-7) 3).1]
    decide
  · rw [(addLeadingZeros_padding_contract 12345 4).2.1]
    decide
  · rw [(addLeadingZeros_padding_contract 0 0).2.2.2 { date1986 with fullYear := -1 }
      trivialLocalize "uu"]
    rfl

/-- C10: the timezone-offset renderer `formatTimezone` inverts the
JavaScript offset-minutes sign convention: for every integer offset in
minutes the rendered string begins with `'-'` when the offset argument is
strictly positive and with `'+'` when it is zero or negative, followed by
the two-digit hour part `floor(abs(offset) / 60)`, the optional delimiter,
and the two-digit minute part `abs(offset) mod 60`; an offset argument of 0
always renders as `"+00:00"` (or `"+0000"` without delimiter), never with a
`'-'` sign. -/
theorem formatTimezone_sign_inversion (offset : Int) (delimeter : String) :
    formatTimezone offset delimeter
        = (if 0 < offset then "-" else "+")
          ++ addLeadingZeros (offset.natAbs / 60) 2 ++ delimeter
          ++ addLeadingZeros (offset.natAbs % 60) 2
    ∧ (formatTimezone offset delimeter).data.head? = some (if 0 < offset then '-' else '+')
    ∧ formatTimezone 0 ":" = "+00:00"
    ∧ formatTimezone 0 "" = "+0000" := by
  have heq : formatTimezone offset delimeter
      = (if 0 < offset then "-" else "+")
        ++ addLeadingZeros (offset.natAbs / 60) 2 ++ delimeter
        ++ addLeadingZeros (offset.natAbs % 60) 2 := rfl
  refine ⟨heq, ?_, ?_, ?_⟩
  · rw [heq]
    by_cases hlt : 0 < offset
    · rw [if_pos hlt, if_pos hlt]
      rw [String.data_append, String.data_append, String.data_append]
      rfl
    · rw [if_neg hlt, if_neg hlt]
      rw [String.data_append, String.data_append, String.data_append]
      rfl
  · show (if (0:Int) < 0 then "-" else "+")
        ++ addLeadingZeros ((0:Int).natAbs / 60) 2 ++ ":"
        ++ addLeadingZeros ((0:Int).natAbs % 60) 2 = "+00:00"
    rw [addLeadingZeros_eq, addLeadingZeros_eq]
    decide
  · show (if (0:Int) < 0 then "-" else "+")
        ++ addLeadingZeros ((0:Int).natAbs / 60) 2 ++ ""
        ++ addLeadingZeros ((0:Int).natAbs % 60) 2 = "+0000"
    rw [addLeadingZeros_eq, addLeadingZeros_eq]
    decide

/-- C3 (failing-input evaluation): the `y` directive at run length 2 takes
`addLeadingZeros(year, 4).substr(2)`, which is the last two digits only for
reported years of at most four digits.  For the five-digit year 12345 the
code returns `"345"`, while the claim — and the code's own documentation
table (`AD 12345 | yy → 45`) — require `"45"`; the sub-four-digit cases
(`"86"` for 1986, `"08"` for year 8) behave as claimed. -/
theorem yy_truncation_five_digit_year :
    formatters.y "yy" { date1986 with fullYear := 12345 } trivialLocalize = "345"
    ∧ formatters.y "yy" date1986 trivialLocalize = "86"
    ∧ formatters.y "yy" { date1986 with fullYear := 8 } trivialLocalize = "08"
    ∧ ¬ formatters.y "yy" { date1986 with fullYear := 12345 } trivialLocalize = "45" := by
  have h12345 : formatters.y "yy" { date1986 with fullYear := 12345 } trivialLocalize
      = (padLoop (Nat.repr 12345) 4).drop 2 := rfl
  have h1986 : formatters.y "yy" date1986 trivialLocalize
      = (padLoop (Nat.repr 1986) 4).drop 2 := rfl
  have h8 : formatters.y "yy" { date1986 with fullYear := 8 } trivialLocalize
      = (padLoop (Nat.repr 8) 4).drop 2 := rfl
  refine ⟨?_, ?_, ?_, ?_⟩
  · rw [h12345, padLoop_eq]
    decide
  · rw [h1986, padLoop_eq]
    decide
  · rw [h8, padLoop_eq]
    decide
  · rw [h12345, padLoop_eq]
    decide

/-- C5: at run length 1, hour 0 renders as `"12"` under `h`, `"0"` under
`H`, `"0"` under `K` and `"24"` under `k`; hour 12 renders as `"12"`,
`"12"`, `"0"` and `"12"` respectively; and for every hour value the number
rendered by `h` lies in 1..12 and the number rendered by `K` lies in
0..11. -/
theorem hour_cycle_wraparound (d : DateValue) (l : Localize) :
    (d.hours = 0 → formatters.h "h" d l = "12" ∧ formatters.H "H" d l = "0"
      ∧ formatters.K "K" d l = "0" ∧ formatters.k "k" d l = "24")
    ∧ (d.hours = 12 → formatters.h "h" d l = "12" ∧ formatters.H "H" d l = "12"
      ∧ formatters.K "K" d l = "0" ∧ formatters.k "k" d l = "12")
    ∧ (1 ≤ formatters.hReportedHours d ∧ formatters.hReportedHours d ≤ 12)
    ∧ d.hours % 12 ≤ 11 := by
  have hone : ∀ v : Nat, addLeadingZeros (v : Int) 1 = Nat.repr v := by
    intro v
    rw [addLeadingZeros_one]
    rfl
  have hh : ∀ d' : DateValue, formatters.h "h" d' l = Nat.repr (formatters.hReportedHours d') := by
    intro d'
    show addLeadingZeros (formatters.hReportedHours d' : Int) ("h" : String).length = _
    rw [show ("h" : String).length = 1 from rfl, hone]
  have hHe : ∀ d' : DateValue, formatters.H "H" d' l = Nat.repr d'.hours := by
    intro d'
    show addLeadingZeros (d'.hours : Int) ("H" : String).length = _
    rw [show ("H" : String).length = 1 from rfl, hone]
  have hKe : ∀ d' : DateValue, formatters.K "K" d' l = Nat.repr (d'.hours % 12) := by
    intro d'
    show addLeadingZeros ((d'.hours % 12 : Nat) : Int) ("K" : String).length = _
    rw [show ("K" : String).length = 1 from rfl, hone]
  have hke : ∀ d' : DateValue,
      formatters.k "k" d' l = Nat.repr (if d'.hours = 0 then 24 else d'.hours) := by
    intro d'
    show addLeadingZeros (((if d'.hours = 0 then 24 else d'.hours) : Nat) : Int)
        ("k" : String).length = _
    rw [show ("k" : String).length = 1 from rfl, hone]
  refine ⟨?_, ?_, ?_, ?_⟩
  · intro h0
    rw [hh, hHe, hKe, hke,
      show formatters.hReportedHours d = 12 by simp [formatters.hReportedHours, h0], h0]
    exact ⟨rfl, rfl, rfl, rfl⟩
  · intro h12
    rw [hh, hHe, hKe, hke,
      show formatters.hReportedHours d = 12 by simp [formatters.hReportedHours, h12], h12]
    exact ⟨rfl, rfl, rfl, rfl⟩
  · constructor <;>
      (simp only [formatters.hReportedHours]; split <;> omega)
  · omega

theorem hour_cycle_wraparound_witness :
    formatters.h "h" { date1986 with hours := 0 } trivialLocalize = "12"
    ∧ formatters.k "k" { date1986 with hours := 0 } trivialLocalize = "24"
    ∧ formatters.H "H" { date1986 with hours := 12 } trivialLocalize = "12"
    ∧ formatters.K "K" { date1986 with hours := 12 } trivialLocalize = "0" :=
  ⟨((hour_cycle_wraparound { date1986 with hours := 0 } trivialLocalize).1 rfl).1,
   ((hour_cycle_wraparound { date1986 with hours := 0 } trivialLocalize).1 rfl).2.2.2,
   ((hour_cycle_wraparound { date1986 with hours := 12 } trivialLocalize).2.1 rfl).2.1,
   ((hour_cycle_wraparound { date1986 with hours := 12 } trivialLocalize).2.1 rfl).2.2.1⟩

/-- C6 (failing-input evaluation): the `S` formatter truncates (never
rounds) — millisecond 123 yields `"1"`, `"12"`, `"123"` at run lengths 1,
2, 3 — but the claimed zero-padding to the run length never happens,
because the source passes `numberOfDigits.length` (`undefined`) as the
target length: millisecond 45 at run length 3 yields `"45"`, not the
claimed `"045"`. -/
theorem fractional_second_no_padding :
    formatters.S "S" date1986 trivialLocalize = "1"
    ∧ formatters.S "SS" date1986 trivialLocalize = "12"
    ∧ formatters.S "SSS" date1986 trivialLocalize = "123"
    ∧ formatters.S "SSS" { date1986 with milliseconds := 45 } trivialLocalize = "45"
    ∧ ¬ formatters.S "SSS" { date1986 with milliseconds := 45 } trivialLocalize = "045" := by
  have h1 : formatters.S "S" date1986 trivialLocalize = padLoop (Nat.repr (123 / 100)) 0 := rfl
  have h2 : formatters.S "SS" date1986 trivialLocalize = padLoop (Nat.repr (123 / 10)) 0 := rfl
  have h3 : formatters.S "SSS" date1986 trivialLocalize
      = padLoop (Nat.repr (123 * 1)) 0 := rfl
  have h4 : formatters.S "SSS" { date1986 with milliseconds := 45 } trivialLocalize
      = padLoop (Nat.repr (45 * 1)) 0 := rfl
  refine ⟨?_, ?_, ?_, ?_, ?_⟩
  · rw [h1, padLoop_eq]; decide
  · rw [h2, padLoop_eq]; decide
  · rw [h3, padLoop_eq]; decide
  · rw [h4, padLoop_eq]; decide
  · rw [h4, padLoop_eq]; decide

/-- C7 (failing-input evaluation): the `X` and `x` formatters never reach
the zero-offset check or the switch — their first statement reads the
identifier `options`, which is not among this revision's parameters
`(pattern, date, localize)` and is bound nowhere in the module, so every
call raises `ReferenceError` instead of returning `"Z"` (for `X` at zero
offset) or a signed offset string (for `x`). -/
theorem X_x_throw_reference_error (p : String) (d : DateValue) (l : Localize) :
    formatters.X p d l = Except.error (JsError.referenceError "options")
    ∧ formatters.x p d l = Except.error (JsError.referenceError "options") :=
  ⟨rfl, rfl⟩

/-- C8 (failing-input evaluation): `M` at run length 2 does return the
1-based month zero-padded to two characters, but at run lengths 3, 4 and 5
the source calls `localize.month(era, ...)` with the unbound identifier
`era` instead of the 0-based month index, so those calls raise
`ReferenceError` and the localizer is never invoked. -/
theorem M_named_widths_reference_error (d : DateValue) (l : Localize) :
    formatters.M "MM" d l = Except.ok (addLeadingZeros (d.month + 1) 2)
    ∧ formatters.M "MMM" d l = Except.error (JsError.referenceError "era")
    ∧ formatters.M "MMMM" d l = Except.error (JsError.referenceError "era")
    ∧ formatters.M "MMMMM" d l = Except.error (JsError.referenceError "era") :=
  ⟨rfl, rfl, rfl, rfl⟩

/-! Scanner evaluation lemmas used by the quoted-literal claim. -/

theorem scanTokens_nil : scanTokens [] = [] := by
  rw [scanTokens.eq_def]

theorem scanTokens_lone_double (rest : List Char) :
    scanTokens (quoteChar :: quoteChar :: rest) = Token.literal "'" :: scanTokens rest := by
  rw [scanTokens.eq_def]
  simp

theorem scanTokens_quote_open (c : Char) (rest : List Char) (hc : ¬ c = quoteChar) :
    scanTokens (quoteChar :: c :: rest)
      = Token.literal (scanQuoted (c :: rest)).1 :: scanTokens (scanQuoted (c :: rest)).2 := by
  rw [scanTokens.eq_def]
  simp [hc]

theorem scanQuoted_no_quote (l : List Char) (hl : ∀ ch ∈ l, ¬ ch = quoteChar) :
    scanQuoted (l ++ [quoteChar]) = (⟨l⟩, []) := by
  induction l with
  | nil => rfl
  | cons ch rest ih =>
    have hch : ¬ ch = quoteChar := hl ch (List.mem_cons_self _ _)
    have hrest : ∀ c2 ∈ rest, ¬ c2 = quoteChar := fun c2 hc2 => hl c2 (List.mem_cons_of_mem _ hc2)
    show scanQuoted (ch :: (rest ++ [quoteChar])) = _
    rw [scanQuoted.eq_def]
    simp only [hch, if_false]
    rw [ih hrest]
    have hmk : String.singleton ch ++ (⟨rest⟩ : String) = ⟨ch :: rest⟩ := by
      apply String.ext
      simp [String.singleton]
    simp [hmk]

theorem scanTokens_quoted_span (c : Char) (cs : List Char) (hc : ¬ c = quoteChar)
    (hcs : ∀ ch ∈ cs, ¬ ch = quoteChar) :
    scanTokens (quoteChar :: c :: (cs ++ [quoteChar])) = [Token.literal ⟨c :: cs⟩] := by
  rw [scanTokens_quote_open c (cs ++ [quoteChar]) hc]
  have hall : ∀ ch ∈ c :: cs, ¬ ch = quoteChar := by
    intro ch hch
    rcases List.mem_cons.mp hch with h1 | h1
    · rw [h1]; exact hc
    · exact hcs ch h1
  have hsq := scanQuoted_no_quote (c :: cs) hall
  rw [List.cons_append] at hsq
  rw [hsq]
  show Token.literal ⟨c :: cs⟩ :: scanTokens [] = [Token.literal ⟨c :: cs⟩]
  rw [scanTokens_nil]

theorem renderTokens_single_literal (env : FormatEnv) (d : DateValue) (txt : String) :
    renderTokens env d [Token.literal txt] = .ok txt := by
  show Except.ok (txt ++ "") = Except.ok txt
  rw [String.append_empty]

/-- C9: for every valid date, a quoted span in the pattern is emitted
verbatim with the delimiting quotes stripped (shown for every span of
non-quote characters), a doubled single quote inside a span decodes to one
literal quote character (shown on the span `'o''clock'`, which formats as
`o'clock`), `format(d, "'literal'")` returns the span text itself, and
`format(d, "''")` returns a single `'` character. -/
theorem quoted_literal_passthrough (env : FormatEnv) (d : DateValue) (s : String)
    (hvalid : d.valid = true) :
    ((s ≠ "" ∧ ∀ ch ∈ s.data, ¬ ch = quoteChar) →
        format env d ("'" ++ s ++ "'") = .ok s)
    ∧ format env d "''" = .ok "'"
    ∧ format env d "'o''clock'" = .ok "o'clock" := by
  have hfmt : ∀ p : String, format env d p = renderTokens env d (scanTokens p.data) := by
    intro p
    simp [format, hvalid]
  refine ⟨?_, ?_, ?_⟩
  · rintro ⟨hne, hnq⟩
    rw [hfmt]
    obtain ⟨c, cs, hcons⟩ : ∃ c cs, s.data = c :: cs := by
      cases hsd : s.data with
      | nil => exact absurd (String.ext (by rw [hsd])) hne
      | cons c cs => exact ⟨c, cs, rfl⟩
    have hdata : ("'" ++ s ++ "'").data = quoteChar :: c :: (cs ++ [quoteChar]) := by
      rw [String.data_append, String.data_append, hcons]
      rfl
    rw [hdata, scanTokens_quoted_span c cs
      (hnq c (hcons ▸ List.mem_cons_self c cs))
      (fun ch hch => hnq ch (hcons ▸ List.mem_cons_of_mem c hch))]
    rw [show (⟨c :: cs⟩ : String) = s from String.ext hcons.symm]
    exact renderTokens_single_literal env d s
  · rw [hfmt]
    rw [show ("''" : String).data = quoteChar :: quoteChar :: [] from rfl]
    rw [scanTokens_lone_double, scanTokens_nil]
    exact renderTokens_single_literal env d "'"
  · rw [hfmt]
    rw [show ("'o''clock'" : String).data
        = quoteChar :: 'o' :: ('\'' :: '\'' :: 'c' :: 'l' :: 'o' :: 'c' :: 'k' :: '\'' :: [])
      from rfl]
    rw [scanTokens_quote_open 'o' _ (by decide)]
    rw [show scanQuoted ('o' :: ('\'' :: '\'' :: 'c' :: 'l' :: 'o' :: 'c' :: 'k' :: '\'' :: []))
        = ("o'clock", []) from rfl]
    show renderTokens env d (Token.literal "o'clock" :: scanTokens []) = _
    rw [scanTokens_nil]
    exact renderTokens_single_literal env d "o'clock"

theorem quoted_literal_passthrough_witness :
    format trivialEnv date1986 "'literal'" = .ok "literal"
    ∧ format trivialEnv date1986 "''" = .ok "'"
    ∧ format trivialEnv date1986 "'o''clock'" = .ok "o'clock" :=
  ⟨(quoted_literal_passthrough trivialEnv date1986 "literal" rfl).1 ⟨by decide, by decide⟩,
   (quoted_literal_passthrough trivialEnv date1986 "literal" rfl).2.1,
   (quoted_literal_passthrough trivialEnv date1986 "literal" rfl).2.2⟩

end DateFns
